/-
Verification of the smart-chair posture server (src/server/server.js).

Shallow embedding: the two classifiers and the two ingestion endpoints are
translated into pure Lean functions.  JavaScript numbers are modelled as
rationals, with an explicit `JsNum` wrapper adding the NaN value that
arises when an array index is out of range (`xs[i]` is `undefined` in
JavaScript, and `undefined` propagates to NaN through arithmetic, with every
comparison against NaN evaluating to false).  Stateful endpoint handlers are
modelled as functions from (request, server state) to (response, server
state).
-/
import Mathlib

/-- A JavaScript numeric value as it flows through `evaluatePosture`:
either an actual (rational) number or NaN.  NaN also stands for the
`undefined` produced by an out-of-range array index, which behaves
identically in the arithmetic and comparisons used by the source
(`undefined + x` is NaN, and every `<`/`>` comparison involving NaN or
`undefined` is false). -/
inductive JsNum where
  | num (q : ℚ)
  | nan
deriving DecidableEq

namespace JsNum

/-- JavaScript `+` on numbers: NaN absorbs. -/
def add : JsNum → JsNum → JsNum
  | num a, num b => num (a + b)
  | _, _ => nan

/-- JavaScript `-` on numbers: NaN absorbs. -/
def sub : JsNum → JsNum → JsNum
  | num a, num b => num (a - b)
  | _, _ => nan

/-- JavaScript `*` on numbers: NaN absorbs. -/
def mul : JsNum → JsNum → JsNum
  | num a, num b => num (a * b)
  | _, _ => nan

/-- JavaScript `Math.abs`: NaN maps to NaN. -/
def abs : JsNum → JsNum
  | num a => num |a|
  | nan => nan

/-- JavaScript `<`: any comparison involving NaN is false. -/
def lt : JsNum → JsNum → Bool
  | num a, num b => decide (a < b)
  | _, _ => false

/-- JavaScript `>`: any comparison involving NaN is false. -/
def gt : JsNum → JsNum → Bool
  | num a, num b => decide (b < a)
  | _, _ => false

end JsNum

/-- Element access `xs[i]` on a JavaScript array of numbers: the value when
`i` is in range, otherwise `undefined` (modelled as NaN, see `JsNum`). -/
def jsIdx (xs : List ℚ) (i : ℕ) : JsNum :=
  match xs.get? i with
  | some q => JsNum.num q
  | none => JsNum.nan

/-- One entry of the `sensors` array sent to `/chair`: an object with a
numeric `value` field (schema `sensors: [{ value: Number }]`). -/
structure SensorObj where
  value : ℚ
deriving DecidableEq

/-- `evaluatePosture(sensorData)` from src/server/server.js.

Maps each sensor object to its `value`, computes the left/right pairing
(indices 0,2 vs 1,3), the total, and the back/front pairing
(`backWeight = values[0] + values[1]`, `frontWeight = values[2] + values[3]`),
then checks in order: total below 200 → "not_sitting";
`frontWeight > backWeight * 1.5` → "lean_forwarding";
`difference > totalWeight * 0.3` → "poor"; otherwise "good". -/
def evaluatePosture (sensorData : List SensorObj) : String :=
  let sensorValues := sensorData.map (fun s => s.value)
  let leftSide := (jsIdx sensorValues 0).add (jsIdx sensorValues 2)
  let rightSide := (jsIdx sensorValues 1).add (jsIdx sensorValues 3)
  let difference := (leftSide.sub rightSide).abs
  let totalWeight := sensorValues.foldl (fun sum val => sum.add (JsNum.num val)) (JsNum.num 0)
  let backWeight := (jsIdx sensorValues 0).add (jsIdx sensorValues 1)
  let frontWeight := (jsIdx sensorValues 2).add (jsIdx sensorValues 3)
  if totalWeight.lt (JsNum.num 200) then
    "not_sitting"
  else if frontWeight.gt (backWeight.mul (JsNum.num 1.5)) then
    "lean_forwarding"
  else if difference.gt (totalWeight.mul (JsNum.num 0.3)) then
    "poor"
  else
    "good"

/-- A 2D position of a PoseNet keypoint. -/
structure Position where
  x : ℚ
  y : ℚ
deriving DecidableEq

/-- A PoseNet keypoint: part name, confidence score, position. -/
structure Keypoint where
  part : String
  score : ℚ
  position : Position
deriving DecidableEq

/-- `analyzePoseNetPosture(keypoints)` from src/server/server.js.

Looks up `nose`, `leftShoulder`, `rightShoulder`, `leftEar`, `rightEar`
by part name (`Array.prototype.find`: first match wins), returns
"not_sitting" when any of the three essential keypoints is missing or has
score below 0.3, then checks shoulder alignment
(`shoulderDiff > shoulderDistance * 0.2` → "poor"), then ear symmetry when
both ears are present with score above 0.5
(`earDiff > earDistance * 0.3` → "poor"), otherwise "good". -/
def analyzePoseNetPosture (keypoints : List Keypoint) : String :=
  let nose := keypoints.find? (fun kp => kp.part == "nose")
  let leftShoulder := keypoints.find? (fun kp => kp.part == "leftShoulder")
  let rightShoulder := keypoints.find? (fun kp => kp.part == "rightShoulder")
  let leftEar := keypoints.find? (fun kp => kp.part == "leftEar")
  let rightEar := keypoints.find? (fun kp => kp.part == "rightEar")
  match nose, leftShoulder, rightShoulder with
  | some nose, some leftShoulder, some rightShoulder =>
    if nose.score < 0.3 ∨ leftShoulder.score < 0.3 ∨ rightShoulder.score < 0.3 then
      "not_sitting"
    else
      let shoulderDiff := |leftShoulder.position.y - rightShoulder.position.y|
      let shoulderDistance := |leftShoulder.position.x - rightShoulder.position.x|
      if shoulderDiff > shoulderDistance * 0.2 then
        "poor"
      else
        match leftEar, rightEar with
        | some leftEar, some rightEar =>
          if leftEar.score > 0.5 ∧ rightEar.score > 0.5 then
            let earDiff := |leftEar.position.y - rightEar.position.y|
            let earDistance := |leftEar.position.x - rightEar.position.x|
            if earDiff > earDistance * 0.3 then "poor" else "good"
          else "good"
        | _, _ => "good"
  | _, _, _ => "not_sitting"

/-- `registerChairId(id)` from src/server/server.js, with the module-level
mutable list `registeredChairIds` made an explicit argument.  The element
type is `Option String`: `/posenet` calls this with `req.body.chairId`,
which may be the JavaScript `undefined` (modelled as `none`); `includes`
is membership and `push` appends. -/
def registerChairId (id : Option String) (registeredChairIds : List (Option String)) :
    List (Option String) :=
  if id ∈ registeredChairIds then registeredChairIds
  else registeredChairIds ++ [id]

/-- The JavaScript expression `v || dflt` applied to an optional string
field of the request body: the default is taken when the field is absent
(`undefined`) or is the falsy empty string. -/
def jsOr (v : Option String) (dflt : String) : String :=
  match v with
  | some s => if s = "" then dflt else s
  | none => dflt

/-- The `sensors` field of a `/chair` request body.  The handler only ever
distinguishes arrays from everything else (`!sensorData || !Array.isArray(sensorData)`
rejects exactly the non-array values: absent/falsy values fail the first
test and the remaining non-array values fail the second), so all non-array
values are collapsed into two representative constructors. -/
inductive SensorsField where
  | missing
  | nonArray
  | array (sensorData : List SensorObj)
deriving DecidableEq

/-- The body of a `POST /chair` request: `{ id?: string, sensors: ... }`. -/
structure ChairRequest where
  id : Option String
  sensors : SensorsField
deriving DecidableEq

/-- The `keypoints` field of a `/posenet` request body; same collapse of
non-array values as `SensorsField`. -/
inductive KeypointsField where
  | missing
  | nonArray
  | array (keypoints : List Keypoint)
deriving DecidableEq

/-- The body of a `POST /posenet` request: `{ chairId?: string, keypoints: ... }`. -/
structure PosenetRequest where
  chairId : Option String
  keypoints : KeypointsField
deriving DecidableEq

/-- A persisted `PostureData` document (mongoose schema): `chairId` is
`Option String` because `/posenet` may persist a record whose `chairId`
field was `undefined`; exactly one of `sensors`/`poseData` is set
depending on the entry point.  The server-assigned timestamp is omitted
from the model (no claim concerns it). -/
structure PostureRecord where
  chairId : Option String
  sensors : Option (List SensorObj)
  poseData : Option (List Keypoint)
  postureStatus : String
deriving DecidableEq

/-- An event broadcast through `io.emit` (timestamps omitted). -/
inductive BroadcastEvent where
  | chairData (chairId : String) (sensors : List SensorObj) (postureStatus : String)
      (source : String)
  | postureUpdate (chairId : Option String) (postureStatus : String) (hasPoseData : Bool)
      (source : String)
deriving DecidableEq

/-- The JSON response produced by the two POST handlers on their two
non-exceptional paths: 200 with `{message, postureStatus}` or 400 with
`{error}`.  (The 500 path only arises from external persistence failures,
which the pure model does not produce.) -/
inductive JsonResponse where
  | ok (message : String) (postureStatus : String)
  | badRequest (error : String)
deriving DecidableEq

/-- The mutable server state touched by the handlers: the module-level
`registeredChairIds` list, the MongoDB collection of saved records, and
the stream of broadcast events. -/
structure ServerState where
  registeredChairIds : List (Option String)
  db : List PostureRecord
  events : List BroadcastEvent
deriving DecidableEq

/-- The `app.post('/chair')` handler from src/server/server.js as a state
transition, following the source's order: read `sensors` and
`id || 'unknown'`, register the chair id, then validate that `sensors` is
an array (400 "Invalid sensor data format" otherwise), classify, persist,
broadcast `chairData`, and respond 200. -/
def handleChair (req : ChairRequest) (st : ServerState) : JsonResponse × ServerState :=
  let chairId := jsOr req.id "unknown"
  let st := { st with registeredChairIds := registerChairId (some chairId) st.registeredChairIds }
  match req.sensors with
  | SensorsField.array sensorData =>
    let postureStatus := evaluatePosture sensorData
    let postureRecord : PostureRecord :=
      { chairId := some chairId, sensors := some sensorData, poseData := none,
        postureStatus := postureStatus }
    let st := { st with db := st.db ++ [postureRecord] }
    let st := { st with events := st.events ++
      [BroadcastEvent.chairData chairId sensorData postureStatus "sensors"] }
    (JsonResponse.ok "Data received successfully" postureStatus, st)
  | _ => (JsonResponse.badRequest "Invalid sensor data format", st)

/-- The `app.post('/posenet')` handler from src/server/server.js as a state
transition, following the source's order: read `chairId` and `keypoints`,
register the chair id as-is (no default, even when absent), then validate
that `keypoints` is an array (400 "Invalid keypoints data" otherwise),
classify, persist, broadcast `postureUpdate`, and respond 200. -/
def handlePosenet (req : PosenetRequest) (st : ServerState) : JsonResponse × ServerState :=
  let chairId := req.chairId
  let st := { st with registeredChairIds := registerChairId chairId st.registeredChairIds }
  match req.keypoints with
  | KeypointsField.array keypoints =>
    let posePosture := analyzePoseNetPosture keypoints
    let postureRecord : PostureRecord :=
      { chairId := chairId, sensors := none, poseData := some keypoints,
        postureStatus := posePosture }
    let st := { st with db := st.db ++ [postureRecord] }
    let st := { st with events := st.events ++
      [BroadcastEvent.postureUpdate chairId posePosture true "posenet"] }
    (JsonResponse.ok "PoseNet data received successfully" posePosture, st)
  | _ => (JsonResponse.badRequest "Invalid keypoints data", st)

/-- Registry states reachable by the server: the list starts empty and is
only ever modified through `registerChairId`. -/
inductive ReachableRegistry : List (Option String) → Prop
  | empty : ReachableRegistry []
  | register (id : Option String) {l : List (Option String)} :
      ReachableRegistry l → ReachableRegistry (registerChairId id l)

example : evaluatePosture [⟨10⟩, ⟨20⟩, ⟨30⟩, ⟨40⟩] = "not_sitting" := by norm_num [evaluatePosture, jsIdx, JsNum.add, JsNum.sub, JsNum.mul, JsNum.abs, JsNum.lt, JsNum.gt, analyzePoseNetPosture, List.find?]
example : evaluatePosture [⟨100⟩, ⟨10⟩, ⟨100⟩, ⟨10⟩] = "poor" := by norm_num [evaluatePosture, jsIdx, JsNum.add, JsNum.sub, JsNum.mul, JsNum.abs, JsNum.lt, JsNum.gt, analyzePoseNetPosture, List.find?]
example : evaluatePosture [⟨100⟩, ⟨100⟩, ⟨100⟩, ⟨100⟩] = "good" := by norm_num [evaluatePosture, jsIdx, JsNum.add, JsNum.sub, JsNum.mul, JsNum.abs, JsNum.lt, JsNum.gt, analyzePoseNetPosture, List.find?]
example : evaluatePosture [⟨10⟩, ⟨10⟩, ⟨300⟩, ⟨0⟩] = "lean_forwarding" := by norm_num [evaluatePosture, jsIdx, JsNum.add, JsNum.sub, JsNum.mul, JsNum.abs, JsNum.lt, JsNum.gt, analyzePoseNetPosture, List.find?]
example : evaluatePosture [⟨100⟩, ⟨100⟩, ⟨10⟩, ⟨10⟩] = "good" := by norm_num [evaluatePosture, jsIdx, JsNum.add, JsNum.sub, JsNum.mul, JsNum.abs, JsNum.lt, JsNum.gt, analyzePoseNetPosture, List.find?]
example : evaluatePosture [⟨150⟩, ⟨150⟩] = "good" := by norm_num [evaluatePosture, jsIdx, JsNum.add, JsNum.sub, JsNum.mul, JsNum.abs, JsNum.lt, JsNum.gt, analyzePoseNetPosture, List.find?]
example : analyzePoseNetPosture [] = "not_sitting" := by simp [analyzePoseNetPosture]
example : analyzePoseNetPosture
    [⟨"nose", 0.2, ⟨0, 0⟩⟩, ⟨"leftShoulder", 0.2, ⟨0, 0⟩⟩, ⟨"rightShoulder", 0.2, ⟨0, 0⟩⟩] =
    "not_sitting" := by
  simp [analyzePoseNetPosture, List.find?]
  norm_num
example : analyzePoseNetPosture
    [⟨"nose", 0.9, ⟨0, 0⟩⟩, ⟨"leftShoulder", 0.9, ⟨100, 200⟩⟩,
     ⟨"rightShoulder", 0.9, ⟨200, 200⟩⟩, ⟨"leftEar", 0.9, ⟨90, 100⟩⟩,
     ⟨"rightEar", 0.9, ⟨210, 100⟩⟩] = "good" := by
  simp [analyzePoseNetPosture, List.find?]
  norm_num

/-- C3: for every pressure reading of 4 numeric values whose sum is strictly
below 200, `evaluatePosture` returns "not_sitting", regardless of how the
weight is distributed among the four sensors (the low-total check is the
first check and wins over all others). -/
theorem evaluatePosture_low_total_not_sitting (a b c d : ℚ)
    (h : a + b + c + d < 200) :
    evaluatePosture [⟨a⟩, ⟨b⟩, ⟨c⟩, ⟨d⟩] = "not_sitting" := by
  simp [evaluatePosture, jsIdx, JsNum.add, JsNum.lt, h]

/-- C3 witness: the concrete reading [10, 20, 30, 40] has total 100 < 200
and is classified "not_sitting". -/
theorem evaluatePosture_low_total_not_sitting_witness :
    ((10 : ℚ) + 20 + 30 + 40 < 200) ∧
    evaluatePosture [⟨10⟩, ⟨20⟩, ⟨30⟩, ⟨40⟩] = "not_sitting" :=
  ⟨by norm_num, evaluatePosture_low_total_not_sitting 10 20 30 40 (by norm_num)⟩

/-- C1 counterexample: the reading [100, 100, 10, 10] satisfies the claim's
premises (total 220 ≥ 200 and readings[0] + readings[1] = 200 > 1.5 ·
(readings[2] + readings[3]) = 30), yet the code classifies it "good": the
source computes `backWeight` from indices 0,1 and `frontWeight` from
indices 2,3 — the opposite pairing from the claim — and its forward-lean
label is the string "lean_forwarding", not "leaning_forward". -/
theorem evaluatePosture_claim_pairing_false :
    ((100 : ℚ) + 100 + 10 + 10 ≥ 200) ∧
    ((100 : ℚ) + 100 > ((10 : ℚ) + 10) * 1.5) ∧
    evaluatePosture [⟨100⟩, ⟨100⟩, ⟨10⟩, ⟨10⟩] = "good" ∧
    evaluatePosture [⟨100⟩, ⟨100⟩, ⟨10⟩, ⟨10⟩] ≠ "leaning_forward" := by
  have hg : evaluatePosture [⟨100⟩, ⟨100⟩, ⟨10⟩, ⟨10⟩] = "good" := by
    norm_num [evaluatePosture, jsIdx, JsNum.add, JsNum.sub, JsNum.mul, JsNum.abs,
      JsNum.lt, JsNum.gt]
  exact ⟨by norm_num, by norm_num, hg, by rw [hg]; decide⟩

/-- C1 (amended): for every pressure reading of 4 values with total ≥ 200
and frontWeight = readings[2] + readings[3] strictly greater than 1.5 times
backWeight = readings[0] + readings[1], `evaluatePosture` returns the
forward-lean label "lean_forwarding", even when the left/right imbalance
also exceeds 0.3 times the total (the forward-lean check precedes the
imbalance check). -/
theorem evaluatePosture_forward_lean (a b c d : ℚ)
    (htotal : a + b + c + d ≥ 200)
    (hfront : c + d > (a + b) * 1.5) :
    evaluatePosture [⟨a⟩, ⟨b⟩, ⟨c⟩, ⟨d⟩] = "lean_forwarding" := by
  have h1 : ¬(a + b + c + d < 200) := not_lt.2 htotal
  simp [evaluatePosture, jsIdx, JsNum.add, JsNum.sub, JsNum.mul, JsNum.abs,
    JsNum.lt, JsNum.gt, h1, hfront]

/-- C1 witness: the reading [10, 10, 300, 0] has total 320 ≥ 200,
frontWeight 300 > 1.5 · backWeight = 30, a left/right imbalance
|310 − 10| = 300 > 0.3 · 320 = 96, and is classified "lean_forwarding"
(forward-lean wins over the imbalance check). -/
theorem evaluatePosture_forward_lean_witness :
    ((10 : ℚ) + 10 + 300 + 0 ≥ 200) ∧
    ((300 : ℚ) + 0 > ((10 : ℚ) + 10) * 1.5) ∧
    (|(10 : ℚ) + 300 - (10 + 0)| > ((10 : ℚ) + 10 + 300 + 0) * 0.3) ∧
    evaluatePosture [⟨10⟩, ⟨10⟩, ⟨300⟩, ⟨0⟩] = "lean_forwarding" :=
  ⟨by norm_num, by norm_num, by norm_num,
    evaluatePosture_forward_lean 10 10 300 0 (by norm_num) (by norm_num)⟩

/-- C4 counterexample: the reading [10, 10, 100, 100] satisfies the claim's
premises under the claim's front/back definitions (total 220 ≥ 200 and
front = readings[0] + readings[1] = 20 ≤ 1.5 · back = 300) and is
left/right balanced (diff 0 ≤ 66), so the claim predicts "good"; but the
code's forward-lean check fires (its frontWeight is indices 2,3) and it
returns "lean_forwarding". -/
theorem evaluatePosture_claim_balance_false :
    ((10 : ℚ) + 10 + 100 + 100 ≥ 200) ∧
    ((10 : ℚ) + 10 ≤ (((100 : ℚ) + 100) * 1.5)) ∧
    (|(10 : ℚ) + 100 - (10 + 100)| ≤ ((10 : ℚ) + 10 + 100 + 100) * 0.3) ∧
    evaluatePosture [⟨10⟩, ⟨10⟩, ⟨100⟩, ⟨100⟩] = "lean_forwarding" := by
  refine ⟨by norm_num, by norm_num, by norm_num, ?_⟩
  norm_num [evaluatePosture, jsIdx, JsNum.add, JsNum.sub, JsNum.mul, JsNum.abs,
    JsNum.lt, JsNum.gt]

/-- C4 (amended): for every pressure reading of 4 values with total ≥ 200
and frontWeight = readings[2] + readings[3] at most 1.5 times
backWeight = readings[0] + readings[1], `evaluatePosture` returns "poor"
when |leftSide − rightSide| > 0.3 · total (leftSide from indices 0,2 and
rightSide from indices 1,3) and returns "good" otherwise; in particular
[100, 10, 100, 10] classifies as "poor" and [100, 100, 100, 100] as
"good". -/
theorem evaluatePosture_imbalance_poor_else_good (a b c d : ℚ)
    (htotal : a + b + c + d ≥ 200)
    (hfb : c + d ≤ (a + b) * 1.5) :
    (|a + c - (b + d)| > (a + b + c + d) * 0.3 →
      evaluatePosture [⟨a⟩, ⟨b⟩, ⟨c⟩, ⟨d⟩] = "poor") ∧
    (|a + c - (b + d)| ≤ (a + b + c + d) * 0.3 →
      evaluatePosture [⟨a⟩, ⟨b⟩, ⟨c⟩, ⟨d⟩] = "good") ∧
    evaluatePosture [⟨100⟩, ⟨10⟩, ⟨100⟩, ⟨10⟩] = "poor" ∧
    evaluatePosture [⟨100⟩, ⟨100⟩, ⟨100⟩, ⟨100⟩] = "good" := by
  have h1 : ¬(a + b + c + d < 200) := not_lt.2 htotal
  have h2 : ¬((a + b) * 1.5 < c + d) := not_lt.2 hfb
  refine ⟨fun h3 => ?_, fun h3 => ?_, ?_, ?_⟩
  · simp [evaluatePosture, jsIdx, JsNum.add, JsNum.sub, JsNum.mul, JsNum.abs,
      JsNum.lt, JsNum.gt, h1, h2, h3]
  · have h4 : ¬((a + b + c + d) * 0.3 < |a + c - (b + d)|) := not_lt.2 h3
    simp [evaluatePosture, jsIdx, JsNum.add, JsNum.sub, JsNum.mul, JsNum.abs,
      JsNum.lt, JsNum.gt, h1, h2, h4]
  · norm_num [evaluatePosture, jsIdx, JsNum.add, JsNum.sub, JsNum.mul, JsNum.abs,
      JsNum.lt, JsNum.gt]
  · norm_num [evaluatePosture, jsIdx, JsNum.add, JsNum.sub, JsNum.mul, JsNum.abs,
      JsNum.lt, JsNum.gt]

/-- C4 witness: at [100, 10, 100, 10] (total 220, front 110 ≤ 165,
imbalance |200 − 20| = 180 > 66) the classifier returns "poor". -/
theorem evaluatePosture_imbalance_poor_else_good_witness :
    evaluatePosture [⟨100⟩, ⟨10⟩, ⟨100⟩, ⟨10⟩] = "poor" :=
  (evaluatePosture_imbalance_poor_else_good 100 10 100 10 (by norm_num)
    (by norm_num)).1 (by norm_num)

/-- C5: for every keypoint set in which any of the parts `nose`,
`leftShoulder`, `rightShoulder` is absent (lookup by part name via
`find?`, so the first match wins on duplicates) or any of the three has
score strictly below 0.3, `analyzePoseNetPosture` returns "not_sitting". -/
theorem analyzePoseNetPosture_gate_not_sitting (kps : List Keypoint)
    (h : kps.find? (fun kp => kp.part == "nose") = none
       ∨ kps.find? (fun kp => kp.part == "leftShoulder") = none
       ∨ kps.find? (fun kp => kp.part == "rightShoulder") = none
       ∨ (∃ n, kps.find? (fun kp => kp.part == "nose") = some n ∧ n.score < 0.3)
       ∨ (∃ s, kps.find? (fun kp => kp.part == "leftShoulder") = some s ∧ s.score < 0.3)
       ∨ (∃ s, kps.find? (fun kp => kp.part == "rightShoulder") = some s ∧ s.score < 0.3)) :
    analyzePoseNetPosture kps = "not_sitting" := by
  simp only [analyzePoseNetPosture]
  rcases hn : kps.find? (fun kp => kp.part == "nose") with _ | n
  · simp [hn]
  rcases hls : kps.find? (fun kp => kp.part == "leftShoulder") with _ | ls
  · simp [hn, hls]
  rcases hrs : kps.find? (fun kp => kp.part == "rightShoulder") with _ | rs
  · simp [hn, hls, hrs]
  have hcond : n.score < 0.3 ∨ ls.score < 0.3 ∨ rs.score < 0.3 := by
    rcases h with h | h | h | ⟨n1, hn1, hsc⟩ | ⟨s1, hs1, hsc⟩ | ⟨s1, hs1, hsc⟩
    · rw [hn] at h; cases h
    · rw [hls] at h; cases h
    · rw [hrs] at h; cases h
    · rw [hn] at hn1; injection hn1 with e; subst e; exact Or.inl hsc
    · rw [hls] at hs1; injection hs1 with e; subst e; exact Or.inr (Or.inl hsc)
    · rw [hrs] at hs1; injection hs1 with e; subst e; exact Or.inr (Or.inr hsc)
  simp [hn, hls, hrs, hcond]

/-- C5 witness: a keypoint set containing all three essential parts but a
nose score of 0.2 < 0.3 is classified "not_sitting". -/
theorem analyzePoseNetPosture_gate_not_sitting_witness :
    analyzePoseNetPosture
      [⟨"nose", 0.2, ⟨0, 0⟩⟩, ⟨"leftShoulder", 0.9, ⟨100, 200⟩⟩,
       ⟨"rightShoulder", 0.9, ⟨200, 200⟩⟩] = "not_sitting" :=
  analyzePoseNetPosture_gate_not_sitting _
    (Or.inr (Or.inr (Or.inr (Or.inl
      ⟨⟨"nose", 0.2, ⟨0, 0⟩⟩, by simp [List.find?], by norm_num⟩))))

/-- C6: for every keypoint set passing the confidence gate (the three
essential parts found with scores not below 0.3), `analyzePoseNetPosture`
returns "poor" if shoulderDiff > shoulderDistance · 0.2; otherwise, if
both ears are found with score strictly above 0.5 and
earDiff > earDistance · 0.3 it returns "poor"; otherwise it returns
"good" (diffs are absolute y-differences, distances absolute
x-differences of the respective pairs). -/
theorem analyzePoseNetPosture_post_gate (kps : List Keypoint) (n ls rs : Keypoint)
    (hn : kps.find? (fun kp => kp.part == "nose") = some n)
    (hls : kps.find? (fun kp => kp.part == "leftShoulder") = some ls)
    (hrs : kps.find? (fun kp => kp.part == "rightShoulder") = some rs)
    (hgate : ¬(n.score < 0.3 ∨ ls.score < 0.3 ∨ rs.score < 0.3)) :
    analyzePoseNetPosture kps =
      if |ls.position.y - rs.position.y| > |ls.position.x - rs.position.x| * 0.2 then
        "poor"
      else
        match kps.find? (fun kp => kp.part == "leftEar"),
              kps.find? (fun kp => kp.part == "rightEar") with
        | some le, some re =>
          if le.score > 0.5 ∧ re.score > 0.5 then
            if |le.position.y - re.position.y| > |le.position.x - re.position.x| * 0.3 then
              "poor"
            else "good"
          else "good"
        | _, _ => "good" := by
  simp only [analyzePoseNetPosture, hn, hls, hrs]
  rw [if_neg hgate]

/-- C6 witness: a full, confident, aligned keypoint set (level shoulders,
level ears) passes the gate and is classified "good". -/
theorem analyzePoseNetPosture_post_gate_witness :
    analyzePoseNetPosture
      [⟨"nose", 0.9, ⟨0, 0⟩⟩, ⟨"leftShoulder", 0.9, ⟨100, 200⟩⟩,
       ⟨"rightShoulder", 0.9, ⟨200, 200⟩⟩, ⟨"leftEar", 0.9, ⟨90, 100⟩⟩,
       ⟨"rightEar", 0.9, ⟨210, 100⟩⟩] = "good" := by
  rw [analyzePoseNetPosture_post_gate _ ⟨"nose", 0.9, ⟨0, 0⟩⟩
    ⟨"leftShoulder", 0.9, ⟨100, 200⟩⟩ ⟨"rightShoulder", 0.9, ⟨200, 200⟩⟩
    (by simp [List.find?]) (by simp [List.find?]) (by simp [List.find?])
    (by norm_num)]
  simp [List.find?]
  norm_num

/-- C10: for every keypoint set passing the confidence gate in which the
two shoulders have equal x coordinates (shoulderDistance = 0), the
classifier is total and deterministic (the Lean model is a total
function, mirroring the source's multiplication-based comparison
`shoulderDiff > shoulderDistance * 0.2`, which involves no division): the
shoulder check returns "poor" exactly when shoulderDiff > 0 (the y
coordinates differ), and when shoulderDiff = 0 control proceeds to the
ear check. -/
theorem analyzePoseNetPosture_zero_shoulder_distance (kps : List Keypoint)
    (n ls rs : Keypoint)
    (hn : kps.find? (fun kp => kp.part == "nose") = some n)
    (hls : kps.find? (fun kp => kp.part == "leftShoulder") = some ls)
    (hrs : kps.find? (fun kp => kp.part == "rightShoulder") = some rs)
    (hgate : ¬(n.score < 0.3 ∨ ls.score < 0.3 ∨ rs.score < 0.3))
    (hx : ls.position.x = rs.position.x) :
    (ls.position.y ≠ rs.position.y → analyzePoseNetPosture kps = "poor") ∧
    (ls.position.y = rs.position.y →
      analyzePoseNetPosture kps =
        match kps.find? (fun kp => kp.part == "leftEar"),
              kps.find? (fun kp => kp.part == "rightEar") with
        | some le, some re =>
          if le.score > 0.5 ∧ re.score > 0.5 then
            if |le.position.y - re.position.y| > |le.position.x - re.position.x| * 0.3 then
              "poor"
            else "good"
          else "good"
        | _, _ => "good") := by
  simp only [analyzePoseNetPosture, hn, hls, hrs]
  rw [if_neg hgate]
  constructor
  · intro hy
    have hc : |ls.position.y - rs.position.y| > |ls.position.x - rs.position.x| * 0.2 := by
      rw [hx, sub_self, abs_zero, zero_mul]
      exact abs_pos.mpr (sub_ne_zero.mpr hy)
    rw [if_pos hc]
  · intro hy
    have hc : ¬(|ls.position.y - rs.position.y| > |ls.position.x - rs.position.x| * 0.2) := by
      rw [hy, sub_self, abs_zero]
      simp only [gt_iff_lt, not_lt]
      positivity
    rw [if_neg hc]

/-- C10 witness: shoulders at equal x (distance 0) with different y are
classified "poor" without any division taking place. -/
theorem analyzePoseNetPosture_zero_shoulder_distance_witness :
    analyzePoseNetPosture
      [⟨"nose", 0.9, ⟨0, 0⟩⟩, ⟨"leftShoulder", 0.9, ⟨100, 200⟩⟩,
       ⟨"rightShoulder", 0.9, ⟨100, 201⟩⟩] = "poor" :=
  (analyzePoseNetPosture_zero_shoulder_distance _ ⟨"nose", 0.9, ⟨0, 0⟩⟩
    ⟨"leftShoulder", 0.9, ⟨100, 200⟩⟩ ⟨"rightShoulder", 0.9, ⟨100, 201⟩⟩
    (by simp [List.find?]) (by simp [List.find?]) (by simp [List.find?])
    (by norm_num) rfl).1 (by norm_num)

/-- Every registry state the server can reach (starting from the empty
list and mutating only through `registerChairId`) is duplicate-free. -/
theorem reachableRegistry_nodup {l : List (Option String)}
    (h : ReachableRegistry l) : l.Nodup := by
  induction h with
  | empty => exact List.nodup_nil
  | register id hr ih =>
    simp only [registerChairId]
    split_ifs with hmem
    · exact ih
    · rw [List.nodup_append]
      exact ⟨ih, List.nodup_singleton _,
        fun x hx hx1 => hmem (List.mem_singleton.mp hx1 ▸ hx)⟩

/-- C9: registration is idempotent: registering an identifier that is
already a member leaves the registry unchanged (same list, hence same
membership and same size) and raises no error (`registerChairId` is a
total function), and every reachable registry state contains no
identifier more than once. -/
theorem registerChairId_idempotent (id : Option String) (l : List (Option String))
    (hmem : id ∈ l) (hreach : ReachableRegistry l) :
    registerChairId id l = l ∧ (registerChairId id l).length = l.length ∧
    l.Nodup ∧ (registerChairId id l).Nodup := by
  have he : registerChairId id l = l := by simp [registerChairId, hmem]
  have hnd := reachableRegistry_nodup hreach
  exact ⟨he, by rw [he], hnd, by rw [he]; exact hnd⟩

/-- C9 witness: registering "a" into the reachable registry ["a", "b"]
leaves it unchanged. -/
theorem registerChairId_idempotent_witness :
    some "a" ∈ [some "a", some "b"] ∧
    registerChairId (some "a") [some "a", some "b"] = [some "a", some "b"] := by
  have h1 : registerChairId (some "a") [] = [some "a"] := by simp [registerChairId]
  have h2 : registerChairId (some "b") [some "a"] = [some "a", some "b"] := by
    simp [registerChairId]
  have r1 : ReachableRegistry (registerChairId (some "a") []) :=
    ReachableRegistry.register _ ReachableRegistry.empty
  rw [h1] at r1
  have r2 : ReachableRegistry (registerChairId (some "b") [some "a"]) :=
    ReachableRegistry.register _ r1
  rw [h2] at r2
  exact ⟨by simp,
    (registerChairId_idempotent (some "a") [some "a", some "b"] (by simp) r2).1⟩

/-- C2 counterexample: the request body `{id: "test-chair-no-sensors"}`
(no `sensors`) is answered 400 "Invalid sensor data format", but the chair
identifier IS registered: `registerChairId` runs before the validation
gate in the `/chair` handler, so state mutation does occur. -/
theorem handleChair_registers_before_validation :
    (handleChair ⟨some "test-chair-no-sensors", SensorsField.missing⟩
        ⟨[], [], []⟩).1 = JsonResponse.badRequest "Invalid sensor data format" ∧
    (handleChair ⟨some "test-chair-no-sensors", SensorsField.missing⟩
        ⟨[], [], []⟩).2.registeredChairIds = [some "test-chair-no-sensors"] := by
  constructor <;> simp [handleChair, jsOr, registerChairId]

/-- C2 (amended): for every `/chair` request whose `sensors` field is
missing or not an array, the request is rejected with status 400 and
error message "Invalid sensor data format", no PostureRecord is persisted
and no event is broadcast; the chair identifier, however, IS registered in
the registry (with the "unknown" default applied), because registration
precedes the validation gate. -/
theorem handleChair_invalid_sensors (req : ChairRequest) (st : ServerState)
    (h : ∀ xs, req.sensors ≠ SensorsField.array xs) :
    (handleChair req st).1 = JsonResponse.badRequest "Invalid sensor data format" ∧
    (handleChair req st).2.db = st.db ∧
    (handleChair req st).2.events = st.events ∧
    (handleChair req st).2.registeredChairIds =
      registerChairId (some (jsOr req.id "unknown")) st.registeredChairIds := by
  cases hs : req.sensors with
  | array xs => exact absurd hs (h xs)
  | missing => simp [handleChair, hs]
  | nonArray => simp [handleChair, hs]

/-- C2 witness: a `/chair` request carrying a non-array `sensors` value is
rejected with the stable message while leaving the database and event
stream untouched. -/
theorem handleChair_invalid_sensors_witness :
    (handleChair ⟨some "w2", SensorsField.nonArray⟩ ⟨[], [], []⟩).1 =
      JsonResponse.badRequest "Invalid sensor data format" ∧
    (handleChair ⟨some "w2", SensorsField.nonArray⟩ ⟨[], [], []⟩).2.db = [] ∧
    (handleChair ⟨some "w2", SensorsField.nonArray⟩ ⟨[], [], []⟩).2.events = [] :=
  ⟨(handleChair_invalid_sensors ⟨some "w2", SensorsField.nonArray⟩ ⟨[], [], []⟩
      (fun xs h => by cases h)).1,
   (handleChair_invalid_sensors ⟨some "w2", SensorsField.nonArray⟩ ⟨[], [], []⟩
      (fun xs h => by cases h)).2.1,
   (handleChair_invalid_sensors ⟨some "w2", SensorsField.nonArray⟩ ⟨[], [], []⟩
      (fun xs h => by cases h)).2.2.1⟩

/-- C7 counterexample: the 2-element array [{value:150},{value:150}] is
not a sequence of exactly 4 numeric readings, yet the `/chair` handler
accepts it (the validation only checks `Array.isArray`) and invokes
`evaluatePosture` on it, answering 200 with the computed status "good". -/
theorem handleChair_length_not_validated :
    (handleChair ⟨some "c", SensorsField.array [⟨150⟩, ⟨150⟩]⟩ ⟨[], [], []⟩).1 =
      JsonResponse.ok "Data received successfully" "good" ∧
    evaluatePosture [⟨150⟩, ⟨150⟩] = "good" := by
  have hg : evaluatePosture [⟨150⟩, ⟨150⟩] = "good" := by
    norm_num [evaluatePosture, jsIdx, JsNum.add, JsNum.sub, JsNum.mul, JsNum.abs,
      JsNum.lt, JsNum.gt]
  refine ⟨?_, hg⟩
  simp [handleChair, hg]

/-- C7 (amended): the `/chair` validation gate rejects exactly the
`sensors` values that are missing or not an array; every array — of any
length — passes validation and is handed to `evaluatePosture`, whose
result is persisted and returned (no length-4 or numeric-content check
exists). -/
theorem handleChair_array_passthrough (req : ChairRequest) (st : ServerState) :
    ((∀ xs, req.sensors ≠ SensorsField.array xs) →
      (handleChair req st).1 = JsonResponse.badRequest "Invalid sensor data format") ∧
    (∀ xs, req.sensors = SensorsField.array xs →
      (handleChair req st).1 =
        JsonResponse.ok "Data received successfully" (evaluatePosture xs) ∧
      (handleChair req st).2.db = st.db ++
        [{ chairId := some (jsOr req.id "unknown"), sensors := some xs,
           poseData := none, postureStatus := evaluatePosture xs }]) := by
  constructor
  · intro h
    cases hs : req.sensors with
    | array xs => exact absurd hs (h xs)
    | missing => simp [handleChair, hs]
    | nonArray => simp [handleChair, hs]
  · intro xs hs
    simp [handleChair, hs]

/-- C7 witness: a well-formed 4-element array passes the gate and the
response carries the classifier's result. -/
theorem handleChair_array_passthrough_witness :
    (handleChair ⟨some "w7", SensorsField.array [⟨100⟩, ⟨100⟩, ⟨100⟩, ⟨100⟩]⟩
        ⟨[], [], []⟩).1 =
      JsonResponse.ok "Data received successfully"
        (evaluatePosture [⟨100⟩, ⟨100⟩, ⟨100⟩, ⟨100⟩]) :=
  ((handleChair_array_passthrough ⟨some "w7",
      SensorsField.array [⟨100⟩, ⟨100⟩, ⟨100⟩, ⟨100⟩]⟩ ⟨[], [], []⟩).2
    [⟨100⟩, ⟨100⟩, ⟨100⟩, ⟨100⟩] rfl).1

/-- C8 counterexample: a `/posenet` request with no `chairId` persists a
PostureRecord whose chair identifier is the absent value (`undefined`),
not the string "unknown": the pose entry point applies no default. -/
theorem posenet_missing_chairId_not_unknown :
    ((handlePosenet ⟨none, KeypointsField.array []⟩ ⟨[], [], []⟩).2.db.map
        PostureRecord.chairId = [none]) ∧
    ((none : Option String) ≠ some "unknown") ∧
    ((handlePosenet ⟨none, KeypointsField.array []⟩ ⟨[], [], []⟩).2.registeredChairIds
        = [none]) := by
  refine ⟨?_, by simp, ?_⟩ <;> simp [handlePosenet, registerChairId]

/-- C8 (amended): only the pressure entry point defaults an absent chair
identifier: a `/chair` request without `id` registers and persists the
identifier "unknown", while a `/posenet` request without `chairId`
registers and persists the absent value itself (no "unknown" default). -/
theorem ingestion_chairId_default (st : ServerState) (sensors : List SensorObj)
    (kps : List Keypoint) :
    ((handleChair ⟨none, SensorsField.array sensors⟩ st).2.db =
      st.db ++ [{ chairId := some "unknown", sensors := some sensors, poseData := none,
                  postureStatus := evaluatePosture sensors }]) ∧
    ((handleChair ⟨none, SensorsField.array sensors⟩ st).2.registeredChairIds =
      registerChairId (some "unknown") st.registeredChairIds) ∧
    ((handlePosenet ⟨none, KeypointsField.array kps⟩ st).2.db =
      st.db ++ [{ chairId := none, sensors := none, poseData := some kps,
                  postureStatus := analyzePoseNetPosture kps }]) ∧
    ((handlePosenet ⟨none, KeypointsField.array kps⟩ st).2.registeredChairIds =
      registerChairId none st.registeredChairIds) := by
  refine ⟨?_, ?_, ?_, ?_⟩ <;> simp [handleChair, handlePosenet, jsOr]
